import Mathlib

/-!
Verification of the project-collection composable
(`src/composables/useProjectStores.js` of ash-jc-allen/showcode).

The composable manages an in-memory ordered list of project stores backed
by browser local storage.  We give a shallow embedding: the manager state
(project list, current tab id, emitted alerts, console logs) is an explicit
record, and every operation of the composable becomes a pure function on it.
External collaborators that are not part of the source under verification
(`useProjectStoreFactory`, the uuid generator, the browser local storage)
are passed in as parameters:

* `storage` models `window.localStorage`, restricted to the entries a
  project store would deserialize; only key enumeration and lookup are used.
* `deflt` models the default state the store factory would produce for a
  key that does not yet exist in storage (`store.load()` on a fresh key).
* `fresh` models the `uuid()` value generated for a call that passes no id.

JavaScript `undefined` is modelled by `Option`; a JavaScript `TypeError`
thrown by reading a property of `undefined` is modelled by `Except.error`.
The debounced persistence (`store.$subscribe(debounce(store.sync, 2000))`,
and the 2500ms debounce around `syncTabOrder`) only delays writes to
storage and is not observable in any in-memory property below, so it is
not modelled; `syncTabOrder` is embedded as the function the debounce wraps.
-/

/-- `export const namespace = 'pages/'` (the word `namespace` is a Lean
keyword, hence the changed name). -/
def storageNamespace : String := "pages/"

/-- The `tab` field of a project store state.  `name` is `Option` because
the import patch copies `data.tab.name`, which may be `undefined`. -/
structure Tab where
  id : String
  name : Option String
  order : Option Int
  created_at : Int
deriving DecidableEq

/-- The `page` field.  The code only ever reads or writes `orientation`;
the rest of the page content is opaque and carried as `rest`. -/
structure Page where
  orientation : String
  rest : String
deriving DecidableEq

/-- The opaque `settings` field. -/
structure Settings where
  raw : String
deriving DecidableEq

/-- The state held by one project store.  `page` and `settings` are
`Option` because the import patch assigns `data.page` / `data.settings`,
which may be `undefined`. -/
structure ProjectState where
  tab : Tab
  page : Option Page
  settings : Option Settings
deriving DecidableEq

/-- A project store: its storage key (the pinia store name) and its state. -/
structure Project where
  key : String
  state : ProjectState
deriving DecidableEq

/-- An alert emitted on the bus: `(level, message)`. -/
abbrev Alert := String × String

/-- `$config`: only `isDesktop` is consulted by the composable. -/
structure Config where
  isDesktop : Bool
deriving DecidableEq

/-- The in-memory state owned by the composable: the `projects` ref, the
current tab id (held by the `useCurrentTab` collaborator), the alerts
emitted on `$bus`, and the `console.error` log. -/
structure ManagerState where
  projects : List Project
  currentTab : Option String
  alerts : List Alert
  logs : List String
deriving DecidableEq

/-- Local storage, restricted to entries that deserialize to project
states: an association list from key to stored state. -/
abbrev Storage := List (String × ProjectState)

/-- Lookup of a key in local storage. -/
def lookupStore (storage : Storage) (k : String) : Option ProjectState :=
  (storage.find? (fun e => e.1 = k)).map (fun e => e.2)

/-- JavaScript `String.prototype.startsWith` (and lodash `startsWith`):
`strStartsWith s p` is true when `s` starts with `p`, computed by
structural recursion on the character lists. -/
def strStartsWith (s p : String) : Bool :=
  p.data.isPrefixOf s.data

/-- `getPagesFromStorage`: the storage keys starting with the namespace
(`Object.keys(window.localStorage).filter(key => key.startsWith(namespace))`). -/
def getPagesFromStorage (storage : Storage) : List String :=
  (storage.map (fun e => e.1)).filter (fun k => strStartsWith k storageNamespace)

/-- The store name computed inside `makeProjectStore`:
`startsWith(id, namespace) ? id : namespace + id`. -/
def storeName (id : String) : String :=
  if strStartsWith id storageNamespace then id else storageNamespace ++ id

/-- `makeProjectStore(id)`: defaults the id to a fresh uuid, namespaces the
store name, and loads the state from storage (existing value if the key
pre-exists, otherwise the factory default).  The debounced `$subscribe`
auto-sync only persists state and is not modelled. -/
def makeProjectStore (storage : Storage) (deflt : String → ProjectState)
    (fresh : String) (id? : Option String) : Project :=
  let id := id?.getD fresh
  let name := storeName id
  { key := name, state := (lookupStore storage name).getD (deflt name) }

/-- `canAddNewProject`: `$config.isDesktop || projects.value.length < 2`. -/
def canAddNewProject (cfg : Config) (s : ManagerState) : Bool :=
  cfg.isDesktop || decide (s.projects.length < 2)

/-- The alert emitted when the plan limit blocks creating a project. -/
def planLimitAlert : Alert :=
  ("danger", "Download the desktop app to unlock more tabs.")

/-- `setTabFromProject` of the `useCurrentTab` collaborator.  Modelled from
the spec: the TabTracker records the given project as current via its tab
id (`useCurrentTab` is repository code not present under `src/`). -/
def setTabFromProject (p : Project) (s : ManagerState) : ManagerState :=
  { s with currentTab := some p.state.tab.id }

/-- `addNewProject(id)`: blocked with one alert when the plan limit is
reached; otherwise makes the store, pushes it, marks it current and
returns it (`return;` with no value is `none`). -/
def addNewProject (cfg : Config) (storage : Storage)
    (deflt : String → ProjectState) (fresh : String) (id? : Option String)
    (s : ManagerState) : ManagerState × Option Project :=
  if !canAddNewProject cfg s then
    ({ s with alerts := s.alerts ++ [planLimitAlert] }, none)
  else
    let newProject := makeProjectStore storage deflt fresh id?
    let s1 := { s with projects := s.projects ++ [newProject] }
    (setTabFromProject newProject s1, some newProject)

/-- `deleteProject(project, index)`: `project.clear()` and
`project.$dispose()` only affect the external store and its storage entry,
so they leave the manager state unchanged; then the element at `index` is
spliced out, and either a replacement project is created (collection now
empty) or the first remaining project is made current. -/
def deleteProject (cfg : Config) (storage : Storage)
    (deflt : String → ProjectState) (fresh : String) (_project : Project)
    (index : Nat) (s : ManagerState) : ManagerState :=
  let ps := s.projects.eraseIdx index
  let s1 := { s with projects := ps }
  if ps.length = 0 then
    (addNewProject cfg storage deflt fresh none s1).1
  else
    match ps.head? with
    | some p => setTabFromProject p s1
    | none => s1

/-- The `tab` object of a parsed import file or template.  Present keys of
the JSON object are `some`; `name` itself may be absent (`undefined`). -/
structure TabData where
  name : Option String
deriving DecidableEq

/-- A parsed JSON import file or a template, as the patch closures read it:
any of the three top-level keys may be absent. -/
structure ImportData where
  tab : Option TabData
  page : Option Page
  settings : Option Settings
deriving DecidableEq

/-- The alert emitted once per missing required key during import. -/
def missingKeyAlert : Alert :=
  ("danger", "Error importing configuration. Required data is missing.")

/-- The `console.error` line for a missing required key. -/
def missingKeyLog (key : String) : String :=
  "The configuration file is missing the data key [" ++ key ++ "]."

/-- The validation loop of `importNewProject`: for each of `tab`, `page`,
`settings` in order, a missing key emits one alert and one log line
and the file processing continues. -/
def reportMissing (data : ImportData) (s : ManagerState) : ManagerState :=
  [("tab", data.tab.isSome), ("page", data.page.isSome),
    ("settings", data.settings.isSome)].foldl
    (fun acc entry =>
      if entry.2 then acc
      else { acc with alerts := acc.alerts ++ [missingKeyAlert],
                      logs := acc.logs ++ [missingKeyLog entry.1] }) s

/-- The `$patch` closure of `importNewProject`.  The assignments run in
order: `state.page = data.page` and `state.settings = data.settings`
always succeed (assigning `undefined` when the key is absent), but
`state.tab.name = data.tab.name` throws a `TypeError` when `data.tab` is
`undefined`. -/
def importPatch (data : ImportData) (st : ProjectState) :
    Except String ProjectState :=
  let st1 := { st with page := data.page, settings := data.settings }
  match data.tab with
  | none => .error "TypeError: cannot read name of undefined"
  | some t => .ok { st1 with tab := { st1.tab with name := t.name } }

/-- The `$patch` closure of `addProjectFromTemplate`: the same three
assignments, followed by the legacy orientation port, which reads
`state.page.orientation` (throwing when `state.page` is `undefined`) and
rewrites `portrait` or `landscape` to `left`. -/
def templatePatch (data : ImportData) (st : ProjectState) :
    Except String ProjectState :=
  let st1 := { st with page := data.page, settings := data.settings }
  match data.tab with
  | none => .error "TypeError: cannot read name of undefined"
  | some t =>
    let st2 := { st1 with tab := { st1.tab with name := t.name } }
    match st2.page with
    | none => .error "TypeError: cannot read orientation of undefined"
    | some pg =>
      if pg.orientation = "portrait" || pg.orientation = "landscape" then
        .ok { st2 with page := some { pg with orientation := "left" } }
      else
        .ok st2

/-- Applies a patch closure to the store returned by `addNewProject`, i.e.
the project last pushed onto the collection. -/
def patchLast (f : ProjectState → Except String ProjectState)
    (s : ManagerState) : Except String ManagerState :=
  match s.projects.getLast? with
  | none => .ok s
  | some p =>
    (f p.state).map
      (fun st => { s with
        projects := s.projects.dropLast ++ [{ p with state := st }] })

/-- `importNewProject()`: the file dialog result is passed in as the list
of selected, already parsed files (`Response.json()` succeeded; a file
that fails to parse rejects earlier and is outside this model).  No file
selected is a silent no-op; otherwise the required keys are validated with
report-and-continue, a project is created unless the plan limit blocks it,
and the new store is patched from the file data.  `Except.error` models a
thrown `TypeError` rejecting the returned promise. -/
def importNewProject (cfg : Config) (storage : Storage)
    (deflt : String → ProjectState) (fresh : String)
    (files : List ImportData) (s : ManagerState) :
    Except String ManagerState :=
  match files.head? with
  | none => .ok s
  | some data =>
    let s1 := reportMissing data s
    match addNewProject cfg storage deflt fresh none s1 with
    | (s2, none) => .ok s2
    | (s2, some _) => patchLast (importPatch data) s2

/-- `addProjectFromTemplate(template)`: deep-copies the template (identity
under value semantics), creates a project unless the plan limit blocks it,
and patches the new store with the legacy orientation port. -/
def addProjectFromTemplate (cfg : Config) (storage : Storage)
    (deflt : String → ProjectState) (fresh : String) (template : ImportData)
    (s : ManagerState) : Except String ManagerState :=
  let data := template
  match addNewProject cfg storage deflt fresh none s with
  | (s2, none) => .ok s2
  | (s2, some _) => patchLast (templatePatch data) s2

/-- The sort key of `hydrateFromStorage`: `tab.order ?? tab.created_at`. -/
def hydrateKey (p : Project) : Int :=
  p.state.tab.order.getD p.state.tab.created_at

/-- lodash `sortBy` with a single iteratee: a stable ascending sort by the
computed key, modelled by insertion sort. -/
def sortBy (key : Project → Int) (l : List Project) : List Project :=
  l.insertionSort (fun a b => key a ≤ key b)

/-- `hydrateFromStorage()`: one store per namespaced storage key, sorted by
`tab.order ?? tab.created_at`. -/
def hydrateFromStorage (storage : Storage) (deflt : String → ProjectState)
    (fresh : String) (s : ManagerState) : ManagerState :=
  let stored := (getPagesFromStorage storage).map
    (fun id => makeProjectStore storage deflt fresh (some id))
  { s with projects := sortBy hydrateKey stored }

/-- One step of the `syncTabOrder` map: patch a project so that
`state.tab.order = index`. -/
def setTabOrder (p : Project) (i : Nat) : Project :=
  { p with state := { p.state with
      tab := { p.state.tab with order := some (i : Int) } } }

/-- The traversal inside `syncTabOrder`, carrying the current index. -/
def syncTabOrderFrom : Nat → List Project → List Project
  | _, [] => []
  | i, p :: ps => setTabOrder p i :: syncTabOrderFrom (i + 1) ps

/-- The function wrapped by the 2500ms debounce in `syncTabOrder`: every
project is patched so its `tab.order` equals its current index. -/
def syncTabOrder (s : ManagerState) : ManagerState :=
  { s with projects := syncTabOrderFrom 0 s.projects }

/-! Concrete sample data used by witnesses and counterexamples. -/

/-- A sample page. -/
def samplePage : Page := { orientation := "left", rest := "content" }

/-- A sample settings object. -/
def sampleSettings : Settings := { raw := "cfg" }

/-- A sample full project state built from an id. -/
def sampleState (id : String) : ProjectState :=
  { tab := { id := id, name := some id, order := none, created_at := 0 },
    page := some samplePage, settings := some sampleSettings }

/-- A sample project store. -/
def sampleProject (key id : String) : Project :=
  { key := key, state := sampleState id }

/-- A sample factory default: what the store factory loads for a key with
no pre-existing storage entry. -/
def defaultFor : String → ProjectState := fun name => sampleState name

/-- A manager state holding the given projects and nothing else. -/
def stateWith (ps : List Project) : ManagerState :=
  { projects := ps, currentTab := none, alerts := [], logs := [] }

/-! Helper lemmas. -/

/-- Splicing one index out of a list removes at most one element. -/
theorem eraseIdx_length_cases (l : List Project) (i : Nat) :
    (l.eraseIdx i).length = l.length ∨ (l.eraseIdx i).length + 1 = l.length := by
  induction l generalizing i with
  | nil => left; rfl
  | cons x xs ih =>
    cases i with
    | zero => right; simp [List.eraseIdx]
    | succ j =>
      rcases ih j with h | h
      · left; simp only [List.eraseIdx, List.length_cons, h]
      · right; simp only [List.eraseIdx, List.length_cons]; omega

/-- The collection size `deleteProject` leaves behind: the spliced length,
or 1 when the splice emptied the collection (the replacement project is
never blocked, because an empty collection is under the plan limit). -/
theorem deleteProject_length (cfg : Config) (storage : Storage)
    (deflt : String → ProjectState) (fresh : String) (project : Project)
    (index : Nat) (s : ManagerState) :
    (deleteProject cfg storage deflt fresh project index s).projects.length =
      if (s.projects.eraseIdx index).length = 0 then 1
      else (s.projects.eraseIdx index).length := by
  unfold deleteProject
  by_cases h0 : (s.projects.eraseIdx index).length = 0
  · simp [h0, addNewProject, canAddNewProject, setTabFromProject]
  · simp only [if_neg h0]
    cases h : (s.projects.eraseIdx index).head? <;>
      simp [setTabFromProject, h]

/-- C1: deleteProject always leaves the collection non-empty, and deleting
from a collection of size 1 leaves a collection of exactly size 1, because
the synchronously created replacement project is never blocked by the plan
limit. -/
theorem deleteProject_nonempty (cfg : Config) (storage : Storage)
    (deflt : String → ProjectState) (fresh : String) (project : Project)
    (index : Nat) (s : ManagerState) :
    1 ≤ (deleteProject cfg storage deflt fresh project index s).projects.length ∧
    (s.projects.length = 1 →
      (deleteProject cfg storage deflt fresh project index s).projects.length = 1) := by
  have hlen := deleteProject_length cfg storage deflt fresh project index s
  have hcases := eraseIdx_length_cases s.projects index
  by_cases h0 : (s.projects.eraseIdx index).length = 0 <;>
    simp [h0] at hlen <;> omega

/-- C1 witness: deleting the sole project of a singleton collection leaves
a collection of size 1. -/
theorem deleteProject_nonempty_witness :
    (stateWith [sampleProject "pages/a" "a"]).projects.length = 1 ∧
    (deleteProject ⟨false⟩ [] defaultFor "u1" (sampleProject "pages/a" "a") 0
      (stateWith [sampleProject "pages/a" "a"])).projects.length = 1 :=
  ⟨rfl,
    (deleteProject_nonempty ⟨false⟩ [] defaultFor "u1"
      (sampleProject "pages/a" "a") 0
      (stateWith [sampleProject "pages/a" "a"])).2 rfl⟩

/-- C2: on a non-desktop build with 2 or more projects, addNewProject
returns none, appends exactly one plan-limit alert, and leaves the
collection unchanged; on a desktop build it always creates and appends a
project. -/
theorem addNewProject_plan_limit (cfg : Config) (storage : Storage)
    (deflt : String → ProjectState) (fresh : String) (id? : Option String)
    (s : ManagerState) :
    (cfg.isDesktop = false → 2 ≤ s.projects.length →
      (addNewProject cfg storage deflt fresh id? s).2 = none ∧
      (addNewProject cfg storage deflt fresh id? s).1.projects = s.projects ∧
      (addNewProject cfg storage deflt fresh id? s).1.alerts =
        s.alerts ++ [planLimitAlert]) ∧
    (cfg.isDesktop = true →
      ∃ p, (addNewProject cfg storage deflt fresh id? s).2 = some p ∧
        (addNewProject cfg storage deflt fresh id? s).1.projects =
          s.projects ++ [p]) := by
  constructor
  · intro hd hlen
    have hcan : canAddNewProject cfg s = false := by
      simp [canAddNewProject, hd]; omega
    simp [addNewProject, hcan]
  · intro hd
    have hcan : canAddNewProject cfg s = true := by
      simp [canAddNewProject, hd]
    simp [addNewProject, hcan, setTabFromProject]

/-- The validation loop touches only the alerts and the logs: the project
list and the current tab are unchanged. -/
theorem reportMissing_projects (d : ImportData) (s : ManagerState) :
    (reportMissing d s).projects = s.projects := by
  unfold reportMissing
  cases d.tab.isSome <;> cases d.page.isSome <;> cases d.settings.isSome <;>
    simp

/-- C8: when the user closes the picker without selecting a file, the
whole call is a silent no-op: the state (collection, alerts, logs, current
tab) is returned unchanged and nothing is thrown. -/
theorem importNewProject_no_file_noop (cfg : Config) (storage : Storage)
    (deflt : String → ProjectState) (fresh : String) (s : ManagerState) :
    importNewProject cfg storage deflt fresh [] s = .ok s := by
  simp [importNewProject]

/-- An import file that parses to an object with `page` and `settings` but
no top-level `tab` key. -/
def noTabData : ImportData :=
  { tab := none, page := some samplePage, settings := some sampleSettings }

/-- C4: evaluating the code on a parsed file without the `tab` key (plan
limit not reached): the patch closure reads `data.tab.name` unguarded, so
the import throws a TypeError instead of continuing.  The validation loop
does report the missing key first, as the claim says. -/
theorem importNewProject_missing_tab_throws :
    importNewProject ⟨false⟩ [] defaultFor "u1" [noTabData] (stateWith []) =
      .error "TypeError: cannot read name of undefined" ∧
    (reportMissing noTabData (stateWith [])).alerts = [missingKeyAlert] ∧
    (reportMissing noTabData (stateWith [])).logs =
      [missingKeyLog "tab"] := by
  refine ⟨?_, rfl, rfl⟩
  rfl

/-- An import file whose `page.orientation` is the legacy value
`portrait`, with all three required keys present. -/
def portraitData : ImportData :=
  { tab := some { name := some "Imported" },
    page := some { orientation := "portrait", rest := "content" },
    settings := some sampleSettings }

/-- C3 counterexample: importing a file with `page.orientation =
"portrait"` (plan limit not reached) creates a project whose orientation
is still `portrait`, not `left`: `importNewProject` performs no
legacy-orientation normalization. -/
theorem importNewProject_keeps_portrait :
    (importNewProject ⟨false⟩ [] defaultFor "u1" [portraitData]
        (stateWith [])).map
      (fun s => s.projects.map (fun p => p.state.page.map Page.orientation)) =
      .ok [some "portrait"] ∧
    "portrait" ≠ "left" := by
  refine ⟨rfl, by decide⟩

/-- Unfolding of the import success path: once a file is selected and the
plan limit does not block `addNewProject`, the import patches the store it
just pushed. -/
theorem importNewProject_cons_eq (cfg : Config) (storage : Storage)
    (deflt : String → ProjectState) (fresh : String) (d : ImportData)
    (rest : List ImportData) (s : ManagerState)
    (hcan : canAddNewProject cfg (reportMissing d s) = true) :
    importNewProject cfg storage deflt fresh (d :: rest) s =
      patchLast (importPatch d)
        (setTabFromProject (makeProjectStore storage deflt fresh none)
          { reportMissing d s with projects :=
              (reportMissing d s).projects ++
                [makeProjectStore storage deflt fresh none] }) := by
  simp [importNewProject, addNewProject, hcan]

/-- Unfolding of the template success path. -/
theorem addProjectFromTemplate_eq (cfg : Config) (storage : Storage)
    (deflt : String → ProjectState) (fresh : String) (d : ImportData)
    (s : ManagerState) (hcan : canAddNewProject cfg s = true) :
    addProjectFromTemplate cfg storage deflt fresh d s =
      patchLast (templatePatch d)
        (setTabFromProject (makeProjectStore storage deflt fresh none)
          { s with projects :=
              s.projects ++ [makeProjectStore storage deflt fresh none] }) := by
  simp [addProjectFromTemplate, addNewProject, hcan]

/-- C3 amended: importNewProject copies `page` from the file verbatim (a
`portrait` or `landscape` orientation is kept as is, not normalized);
the portrait/landscape-to-left normalization applies only to
addProjectFromTemplate. -/
theorem importNewProject_orientation (cfg : Config) (storage : Storage)
    (deflt : String → ProjectState) (fresh : String) (t : TabData)
    (pg : Page) (stg : Option Settings) (s : ManagerState)
    (hcan : cfg.isDesktop = true ∨ s.projects.length < 2) :
    (∃ s2, importNewProject cfg storage deflt fresh
        [{ tab := some t, page := some pg, settings := stg }] s = .ok s2 ∧
      s2.projects.getLast?.map (fun p => p.state.page) = some (some pg)) ∧
    ((pg.orientation = "portrait" ∨ pg.orientation = "landscape") →
      ∃ s3, addProjectFromTemplate cfg storage deflt fresh
          { tab := some t, page := some pg, settings := stg } s = .ok s3 ∧
        s3.projects.getLast?.map
          (fun p => p.state.page.map Page.orientation) =
          some (some "left")) := by
  have hrp := reportMissing_projects
    { tab := some t, page := some pg, settings := stg } s
  have hcan' : canAddNewProject cfg
      (reportMissing { tab := some t, page := some pg, settings := stg } s) =
      true := by
    simp [canAddNewProject, hrp]
    tauto
  have hcan0 : canAddNewProject cfg s = true := by
    simp [canAddNewProject]
    tauto
  constructor
  · rw [importNewProject_cons_eq cfg storage deflt fresh _ _ s hcan']
    simp [patchLast, setTabFromProject, importPatch, Except.map]
  · intro hor
    rw [addProjectFromTemplate_eq cfg storage deflt fresh _ s hcan0]
    have hor' : (pg.orientation = "portrait" ||
        pg.orientation = "landscape") = true := by
      rcases hor with h | h <;> simp [h]
    simp [patchLast, setTabFromProject, templatePatch, hor', Except.map]

/-- C3 amended witness: a concrete portrait-orientation file import keeps
`portrait`, while the same data as a template becomes `left`. -/
theorem importNewProject_orientation_witness :
    ((⟨true⟩ : Config).isDesktop = true ∨
      (stateWith []).projects.length < 2) ∧
    (∃ s2, importNewProject ⟨true⟩ [] defaultFor "u1"
        [{ tab := some { name := some "Imported" },
           page := some { orientation := "portrait", rest := "content" },
           settings := some sampleSettings }] (stateWith []) = .ok s2 ∧
      s2.projects.getLast?.map (fun p => p.state.page) =
        some (some { orientation := "portrait", rest := "content" })) ∧
    (∃ s3, addProjectFromTemplate ⟨true⟩ [] defaultFor "u1"
        { tab := some { name := some "Imported" },
          page := some { orientation := "portrait", rest := "content" },
          settings := some sampleSettings } (stateWith []) = .ok s3 ∧
      s3.projects.getLast?.map
        (fun p => p.state.page.map Page.orientation) =
        some (some "left")) :=
  ⟨Or.inl rfl,
    (importNewProject_orientation ⟨true⟩ [] defaultFor "u1"
      { name := some "Imported" } { orientation := "portrait", rest := "content" }
      (some sampleSettings) (stateWith []) (Or.inl rfl)).1,
    (importNewProject_orientation ⟨true⟩ [] defaultFor "u1"
      { name := some "Imported" } { orientation := "portrait", rest := "content" }
      (some sampleSettings) (stateWith []) (Or.inl rfl)).2 (Or.inl rfl)⟩

/-- C7: importing a file that has `tab` and `page` but no `settings` key,
with the plan limit not reached, still appends one new project and emits
exactly one alert (the missing-key alert). -/
theorem importNewProject_missing_settings (cfg : Config) (storage : Storage)
    (deflt : String → ProjectState) (fresh : String) (t : TabData)
    (pg : Page) (s : ManagerState)
    (hcan : cfg.isDesktop = true ∨ s.projects.length < 2) :
    ∃ s2, importNewProject cfg storage deflt fresh
        [{ tab := some t, page := some pg, settings := none }] s = .ok s2 ∧
      s2.projects.length = s.projects.length + 1 ∧
      s2.alerts = s.alerts ++ [missingKeyAlert] := by
  have hrp := reportMissing_projects
    { tab := some t, page := some pg, settings := none } s
  have hcan' : canAddNewProject cfg
      (reportMissing { tab := some t, page := some pg, settings := none } s) =
      true := by
    simp [canAddNewProject, hrp]
    tauto
  rw [importNewProject_cons_eq cfg storage deflt fresh _ _ s hcan']
  simp only [patchLast, setTabFromProject, importPatch, Except.map,
    List.getLast?_concat, List.dropLast_concat]
  refine ⟨_, rfl, ?_, ?_⟩ <;>
    simp [reportMissing, hrp]

/-- C7 witness: a concrete import missing only `settings` appends a
project and emits exactly one alert. -/
theorem importNewProject_missing_settings_witness :
    ((⟨false⟩ : Config).isDesktop = true ∨
      (stateWith []).projects.length < 2) ∧
    (∃ s2, importNewProject ⟨false⟩ [] defaultFor "u2"
        [{ tab := some { name := some "T" }, page := some samplePage,
           settings := none }] (stateWith []) = .ok s2 ∧
      s2.projects.length = (stateWith []).projects.length + 1 ∧
      s2.alerts = (stateWith []).alerts ++ [missingKeyAlert]) :=
  ⟨Or.inr (by decide),
    importNewProject_missing_settings ⟨false⟩ [] defaultFor "u2"
      { name := some "T" } samplePage (stateWith []) (Or.inr (by decide))⟩

/-- C10: with the plan limit reached, both importNewProject (after a file
was selected and parsed, whatever its shape) and addProjectFromTemplate
return normally (nothing is thrown, because the patch is guarded by the
null check on the project), add no project, and emit the plan-limit
alert. -/
theorem plan_limit_blocks_import_and_template (cfg : Config)
    (storage : Storage) (deflt : String → ProjectState) (fresh : String)
    (d : ImportData) (rest : List ImportData) (s : ManagerState)
    (hd : cfg.isDesktop = false) (hlen : 2 ≤ s.projects.length) :
    (∃ s2, importNewProject cfg storage deflt fresh (d :: rest) s = .ok s2 ∧
      s2.projects = s.projects ∧
      s2.alerts = (reportMissing d s).alerts ++ [planLimitAlert]) ∧
    (∃ s3, addProjectFromTemplate cfg storage deflt fresh d s = .ok s3 ∧
      s3.projects = s.projects ∧
      s3.alerts = s.alerts ++ [planLimitAlert]) := by
  have hcan' : canAddNewProject cfg (reportMissing d s) = false := by
    simp [canAddNewProject, reportMissing_projects, hd]
    omega
  have hcan : canAddNewProject cfg s = false := by
    simp [canAddNewProject, hd]
    omega
  constructor
  · refine ⟨{ reportMissing d s with
        alerts := (reportMissing d s).alerts ++ [planLimitAlert] }, ?_,
      reportMissing_projects d s, rfl⟩
    simp [importNewProject, addNewProject, hcan']
  · refine ⟨{ s with alerts := s.alerts ++ [planLimitAlert] }, ?_, rfl, rfl⟩
    simp [addProjectFromTemplate, addNewProject, hcan]

/-- C10 witness: with two projects on a non-desktop build, a concrete
file import (of a file even missing every key) and a concrete template both
return normally, add nothing and emit the plan-limit alert. -/
theorem plan_limit_blocks_witness :
    ((⟨false⟩ : Config).isDesktop = false ∧
      2 ≤ (stateWith [sampleProject "pages/a" "a",
        sampleProject "pages/b" "b"]).projects.length) ∧
    (∃ s2, importNewProject ⟨false⟩ [] defaultFor "u3"
        [{ tab := none, page := none, settings := none }]
        (stateWith [sampleProject "pages/a" "a",
          sampleProject "pages/b" "b"]) = .ok s2 ∧
      s2.projects = (stateWith [sampleProject "pages/a" "a",
        sampleProject "pages/b" "b"]).projects ∧
      s2.alerts = (reportMissing { tab := none, page := none, settings := none }
        (stateWith [sampleProject "pages/a" "a",
          sampleProject "pages/b" "b"])).alerts ++ [planLimitAlert]) :=
  ⟨⟨rfl, by decide⟩,
    (plan_limit_blocks_import_and_template ⟨false⟩ [] defaultFor "u3"
      { tab := none, page := none, settings := none } []
      (stateWith [sampleProject "pages/a" "a", sampleProject "pages/b" "b"])
      rfl (by decide)).1⟩

/-- lodash sortBy returns a permutation of its input. -/
theorem sortBy_perm (key : Project → Int) (l : List Project) :
    (sortBy key l).Perm l :=
  List.perm_insertionSort _ l

/-- lodash sortBy sorts ascending by the computed key. -/
theorem sortBy_pairwise (key : Project → Int) (l : List Project) :
    (sortBy key l).Pairwise (fun a b => key a ≤ key b) := by
  letI : IsTotal Project (fun a b => key a ≤ key b) :=
    ⟨fun a b => Int.le_total (key a) (key b)⟩
  letI : IsTrans Project (fun a b => key a ≤ key b) :=
    ⟨fun a b c hab hbc => Int.le_trans hab hbc⟩
  exact List.sorted_insertionSort _ l

/-- C5 amended: hydrateFromStorage builds one store per storage key with
the namespace prefix and sorts them ascending by the single lodash key
`tab.order ?? tab.created_at`; the sort is stable, so equal keys (in
particular equal `tab.order` values) keep the storage enumeration order —
`created_at` does not break ties. -/
theorem hydrateFromStorage_sorted (storage : Storage)
    (deflt : String → ProjectState) (fresh : String) (s : ManagerState) :
    ((hydrateFromStorage storage deflt fresh s).projects).Perm
      ((getPagesFromStorage storage).map
        (fun id => makeProjectStore storage deflt fresh (some id))) ∧
    ((hydrateFromStorage storage deflt fresh s).projects).Pairwise
      (fun p q => hydrateKey p ≤ hydrateKey q) := by
  constructor
  · simpa [hydrateFromStorage] using
      sortBy_perm hydrateKey ((getPagesFromStorage storage).map
        (fun id => makeProjectStore storage deflt fresh (some id)))
  · simpa [hydrateFromStorage] using
      sortBy_pairwise hydrateKey ((getPagesFromStorage storage).map
        (fun id => makeProjectStore storage deflt fresh (some id)))

/-- Stored state for the tie counterexample: `tab.order = 0`, the later
`created_at`. -/
def tieStateA : ProjectState :=
  { tab := { id := "a", name := some "a", order := some 0, created_at := 2 },
    page := some samplePage, settings := some sampleSettings }

/-- Stored state for the tie counterexample: `tab.order = 0`, the earlier
`created_at`. -/
def tieStateB : ProjectState :=
  { tab := { id := "b", name := some "b", order := some 0, created_at := 1 },
    page := some samplePage, settings := some sampleSettings }

/-- A local storage holding two projects with equal `tab.order` whose
enumeration order is the opposite of their `created_at` order. -/
def tieStorage : Storage :=
  [("pages/a", tieStateA), ("pages/b", tieStateB)]

/-- C5 counterexample: hydrating `tieStorage` keeps the enumeration order
`[a, b]` although both projects have `tab.order = 0` and `a` was created
after `b` (`created_at` 2 vs 1): ties in `tab.order` are not broken by
`tab.created_at`, because lodash sortBy uses the single key
`tab.order ?? tab.created_at` and is stable. -/
theorem hydrateFromStorage_tie_counterexample :
    ((hydrateFromStorage tieStorage defaultFor "u1" (stateWith [])).projects.map
      (fun p => (p.state.tab.order, p.state.tab.created_at))) =
      [(some 0, 2), (some 0, 1)] ∧
    ¬ ((2 : Int) ≤ 1) :=
  ⟨rfl, by decide⟩

/-- The `syncTabOrder` traversal preserves the collection length. -/
theorem syncTabOrderFrom_length (start : Nat) (l : List Project) :
    (syncTabOrderFrom start l).length = l.length := by
  induction l generalizing start with
  | nil => rfl
  | cons p ps ih => simp [syncTabOrderFrom, ih]

/-- Each element of the `syncTabOrder` traversal carries its absolute
position as `tab.order`. -/
theorem syncTabOrderFrom_get (start : Nat) (l : List Project) (i : Nat)
    (h : i < (syncTabOrderFrom start l).length) :
    ((syncTabOrderFrom start l).get ⟨i, h⟩).state.tab.order =
      some ((start + i : Nat) : Int) := by
  induction l generalizing start i with
  | nil => simp [syncTabOrderFrom] at h
  | cons p ps ih =>
    cases i with
    | zero => simp [syncTabOrderFrom, setTabOrder]
    | succ j =>
      have h' : j < (syncTabOrderFrom (start + 1) ps).length := by
        simpa [syncTabOrderFrom] using h
      have := ih (start + 1) j h'
      have harith : start + 1 + j = start + (j + 1) := by omega
      simpa [syncTabOrderFrom, harith] using this

/-- C6: after the function wrapped by syncTabOrder fires, every project in
the collection has `tab.order` equal to its current index, the collection
length being unchanged. -/
theorem syncTabOrder_sets_order (s : ManagerState) (i : Nat)
    (h : i < (syncTabOrder s).projects.length) :
    ((syncTabOrder s).projects.get ⟨i, h⟩).state.tab.order =
      some (i : Int) ∧
    (syncTabOrder s).projects.length = s.projects.length := by
  constructor
  · simpa using syncTabOrderFrom_get 0 s.projects i h
  · exact syncTabOrderFrom_length 0 s.projects

/-- C6 witness: a two-element collection reordered to `[B, A]` ends with
`B.tab.order = 0` and `A.tab.order = 1`. -/
theorem syncTabOrder_sets_order_witness :
    ((syncTabOrder (stateWith [sampleProject "pages/b" "b",
        sampleProject "pages/a" "a"])).projects.get
      ⟨0, by decide⟩).state.tab.order = some 0 ∧
    ((syncTabOrder (stateWith [sampleProject "pages/b" "b",
        sampleProject "pages/a" "a"])).projects.get
      ⟨1, by decide⟩).state.tab.order = some 1 :=
  ⟨(syncTabOrder_sets_order (stateWith [sampleProject "pages/b" "b",
      sampleProject "pages/a" "a"]) 0 (by decide)).1,
    (syncTabOrder_sets_order (stateWith [sampleProject "pages/b" "b",
      sampleProject "pages/a" "a"]) 1 (by decide)).1⟩

/-- C9: an id already carrying the namespace prefix is used as the store
key unchanged (no double prefix), any other id gets the prefix added, and
hydration therefore recreates every stored project under exactly its
original storage key. -/
theorem makeProjectStore_key_stable (storage : Storage)
    (deflt : String → ProjectState) (fresh : String) (s : ManagerState) :
    (∀ id : String, strStartsWith id storageNamespace = true →
      storeName id = id) ∧
    (∀ id : String, strStartsWith id storageNamespace = false →
      storeName id = storageNamespace ++ id) ∧
    (∀ key ∈ getPagesFromStorage storage,
      (makeProjectStore storage deflt fresh (some key)).key = key) ∧
    ((hydrateFromStorage storage deflt fresh s).projects.map
        Project.key).Perm (getPagesFromStorage storage) := by
  have hkey : ∀ key ∈ getPagesFromStorage storage,
      (makeProjectStore storage deflt fresh (some key)).key = key := by
    intro key hk
    have hpref : strStartsWith key storageNamespace = true := by
      simp only [getPagesFromStorage, List.mem_filter] at hk
      exact hk.2
    simp [makeProjectStore, storeName, hpref]
  refine ⟨?_, ?_, hkey, ?_⟩
  · intro id h
    simp [storeName, h]
  · intro id h
    simp [storeName, h]
  · have h1 : ((hydrateFromStorage storage deflt fresh s).projects.map
        Project.key).Perm
        (((getPagesFromStorage storage).map
          (fun id => makeProjectStore storage deflt fresh (some id))).map
            Project.key) := by
      have hperm := (sortBy_perm hydrateKey ((getPagesFromStorage storage).map
        (fun id => makeProjectStore storage deflt fresh (some id)))).map
          Project.key
      simpa [hydrateFromStorage] using hperm
    have h2 : ((getPagesFromStorage storage).map
        (fun id => makeProjectStore storage deflt fresh (some id))).map
          Project.key = getPagesFromStorage storage := by
      rw [List.map_map]
      have := List.map_congr_left
        (l := getPagesFromStorage storage)
        (f := Project.key ∘ fun id => makeProjectStore storage deflt fresh (some id))
        (g := id) (fun a ha => hkey a ha)
      rw [this, List.map_id]
    rw [h2] at h1
    exact h1

/-- C9 witness: a prefixed id keeps its key, an unprefixed id gains the
prefix, and a concrete stored key is recreated under itself. -/
theorem makeProjectStore_key_stable_witness :
    (strStartsWith "pages/x" storageNamespace = true ∧
      storeName "pages/x" = "pages/x") ∧
    (strStartsWith "xyz" storageNamespace = false ∧
      storeName "xyz" = storageNamespace ++ "xyz") ∧
    ("pages/a" ∈ getPagesFromStorage tieStorage ∧
      (makeProjectStore tieStorage defaultFor "u1" (some "pages/a")).key =
        "pages/a") :=
  ⟨⟨by decide,
      (makeProjectStore_key_stable [] defaultFor "u1" (stateWith [])).1
        "pages/x" (by decide)⟩,
    ⟨by decide,
      (makeProjectStore_key_stable [] defaultFor "u1" (stateWith [])).2.1
        "xyz" (by decide)⟩,
    ⟨by decide,
      (makeProjectStore_key_stable tieStorage defaultFor "u1"
        (stateWith [])).2.2.1 "pages/a" (by decide)⟩⟩

/-- C2 witness: with 2 projects on a non-desktop build, creation is
blocked with one alert and an unchanged collection. -/
theorem addNewProject_plan_limit_witness :
    ((⟨false⟩ : Config).isDesktop = false ∧
      2 ≤ (stateWith [sampleProject "pages/a" "a",
        sampleProject "pages/b" "b"]).projects.length) ∧
    (addNewProject ⟨false⟩ [] defaultFor "u1" none
      (stateWith [sampleProject "pages/a" "a",
        sampleProject "pages/b" "b"])).2 = none ∧
    (addNewProject ⟨false⟩ [] defaultFor "u1" none
      (stateWith [sampleProject "pages/a" "a",
        sampleProject "pages/b" "b"])).1.alerts = [] ++ [planLimitAlert] :=
  ⟨⟨rfl, by decide⟩,
    ((addNewProject_plan_limit ⟨false⟩ [] defaultFor "u1" none
      (stateWith [sampleProject "pages/a" "a",
        sampleProject "pages/b" "b"])).1 rfl (by decide)).1,
    ((addNewProject_plan_limit ⟨false⟩ [] defaultFor "u1" none
      (stateWith [sampleProject "pages/a" "a",
        sampleProject "pages/b" "b"])).1 rfl (by decide)).2.2⟩
